import Mathlib

/-!
Verification of the flush-callback / bring-up glue of the
ESP32-Voice-Assistant-Fleet examples
(`src/VA Testing/src/guition_3_5/ex01_hello_lvgl/main.cpp` and
`src/VA Testing/src/guition_3_5/ex01_hello_lvgl_copilot/main.cpp`).

The original logic is a single flush callback `my_disp_flush` that
byte-swaps pixel rows from the graphics engine's buffer into a row
transfer buffer (`dma_buf`) and pushes each row to the panel driver,
plus a linear `setup()` bring-up sequence.  We embed both shallowly:
the flush callback as a function from a dirty rectangle, a source
sample buffer and a row buffer to a trace of driver/engine calls, and
the bring-up sequence as a function from allocation outcomes to a
trace of initialization events plus a final state.
-/

namespace VAFleet

/-- Embedding of `__builtin_bswap16` on a 16-bit value held in a `Nat`: the low byte
becomes the high byte and vice versa (main.cpp line 80 in both variants). -/
def bswap16 (s : Nat) : Nat :=
  (s % 256) * 256 + (s / 256) % 256

/-- The `lv_area_t` rectangle: inclusive bounds of a dirty region.  The fields are
`int32_t` in LVGL; panel coordinates are tiny, so plain `Int` is exact. -/
structure Area where
  x1 : Int
  y1 : Int
  x2 : Int
  y2 : Int
deriving DecidableEq, Repr

/-- Width computation `const int w = area->x2 - area->x1 + 1;` (both variants). -/
def areaW (a : Area) : Int := a.x2 - a.x1 + 1

/-- Height computation `const int h = area->y2 - area->y1 + 1;` (both variants). -/
def areaH (a : Area) : Int := a.y2 - a.y1 + 1

/-- The slice of `lv_display_t` the flush callback uses: only the user-data
pointer, which the ex01 variant reads back to obtain the `BB_SPI_LCD`
driver handle.  Driver handles are named by `Nat`. -/
structure Display where
  userData : Nat
deriving DecidableEq, Repr

/-- Embedding of `lv_display_get_user_data(disp_ptr)` (ex01 variant, line 68). -/
def lv_display_get_user_data (d : Display) : Nat := d.userData

/-- Observable calls the flush callback makes, in order: the driver's
`setAddrWindow` and `pushPixels` (the pushed row is the list of 16-bit
samples the driver reads from the row buffer; the two booleans record
the `DRAW_TO_LCD` and `DRAW_WITH_DMA` flags), and the engine's
`lv_display_flush_ready`. -/
inductive Event where
  | setAddrWindow (handle : Nat) (x y w h : Int)
  | pushPixels (handle : Nat) (row : List Nat) (drawToLcd drawWithDma : Bool)
  | flushReady
deriving DecidableEq, Repr

/-- The inner loop `for (x = 0; x < w; x++) dma_buf[x] = __builtin_bswap16(src[x]);`
of `my_disp_flush` (ex01 variant, lines 78-81): writes buffer cells
`0 .. w-1`, cell `x` receiving the byte-swap of source sample `off + x`.
Unrolled from the last iteration so that induction on `w` follows the loop. -/
def convertRow (src : List Nat) (off : Nat) : Nat → List Nat → List Nat
  | 0, buf => buf
  | Nat.succ x, buf =>
      (convertRow src off x buf).set x (bswap16 (src.getD (off + x) 0))

/-- The call `lcd->pushPixels(dma_buf, w, DRAW_TO_LCD | DRAW_WITH_DMA);` — the driver
reads the first `w` samples of the row buffer. -/
def pushRow (handle : Nat) (buf : List Nat) (w : Nat) : Event :=
  Event.pushPixels handle ((List.range w).map fun x => buf.getD x 0) true true

/-- Result of a flush: the emitted call trace and the final contents of the
row transfer buffer. -/
structure FlushOut where
  events : List Event
  dmaBuf : List Nat
deriving DecidableEq, Repr

/-- The outer loop `for (y = 0; y < h; y++) { ...; lcd->pushPixels(...); src += w; }`
of `my_disp_flush` (ex01 variant, lines 76-84): one conversion plus one
`pushPixels` per remaining row, the source offset advancing by `w`. -/
def flushRows (handle : Nat) (src : List Nat) (w : Nat) : Nat → Nat → List Nat → FlushOut
  | 0, _, buf => { events := [], dmaBuf := buf }
  | Nat.succ hRem, off, buf =>
      let buf2 := convertRow src off w buf
      let rest := flushRows handle src w hRem (off + w) buf2
      { events := pushRow handle buf2 w :: rest.events, dmaBuf := rest.dmaBuf }

/-- Embedding of `my_disp_flush` of `ex01_hello_lvgl/main.cpp` (lines 66-87): obtain the
driver handle from the display's user data, compute `w`/`h`, set the
address window, push the rows, signal flush-ready. -/
def my_disp_flush (d : Display) (a : Area) (px_map : List Nat) (dma_buf : List Nat) :
    FlushOut :=
  let lcd := lv_display_get_user_data d
  let w := areaW a
  let h := areaH a
  let rows := flushRows lcd px_map w.toNat h.toNat 0 dma_buf
  { events := Event.setAddrWindow lcd a.x1 a.y1 w h :: rows.events ++ [Event.flushReady],
    dmaBuf := rows.dmaBuf }

/-- The file-scope `static BB_SPI_LCD lcd;` of the copilot variant (line 29),
as a driver handle. -/
def copilot_lcd : Nat := 0

/-- Inner conversion loop of the copilot variant's `my_disp_flush`
(`ex01_hello_lvgl_copilot/main.cpp`, lines 78-80); textually the same loop
as the ex01 variant's, embedded separately so the equivalence of the two
callbacks is a theorem rather than a definition. -/
def convertRowC (src : List Nat) (off : Nat) : Nat → List Nat → List Nat
  | 0, buf => buf
  | Nat.succ x, buf =>
      (convertRowC src off x buf).set x (bswap16 (src.getD (off + x) 0))

/-- Outer row loop of the copilot variant's `my_disp_flush` (lines 77-84). -/
def flushRowsC (handle : Nat) (src : List Nat) (w : Nat) : Nat → Nat → List Nat → FlushOut
  | 0, _, buf => { events := [], dmaBuf := buf }
  | Nat.succ hRem, off, buf =>
      let buf2 := convertRowC src off w buf
      let rest := flushRowsC handle src w hRem (off + w) buf2
      { events := pushRow handle buf2 w :: rest.events, dmaBuf := rest.dmaBuf }

/-- Embedding of `my_disp_flush` of `ex01_hello_lvgl_copilot/main.cpp` (lines 63-89): same
body as the ex01 variant except that the driver is the file-scope `lcd`
object rather than the display's user-data pointer (the `count` local is
computed and unused in the source, so it does not appear here). -/
def my_disp_flush_c (_d : Display) (a : Area) (px_map : List Nat) (dma_buf : List Nat) :
    FlushOut :=
  let w := areaW a
  let h := areaH a
  let rows := flushRowsC copilot_lcd px_map w.toNat h.toNat 0 dma_buf
  { events := Event.setAddrWindow copilot_lcd a.x1 a.y1 w h :: rows.events ++ [Event.flushReady],
    dmaBuf := rows.dmaBuf }

/-- Variant of `my_disp_flush` with the row-buffer pointer made explicit: `dma_buf` is a
C pointer that is `nullptr` until `setup()` assigns it.  `none` models the
null pointer; a flush whose rectangle is non-empty then executes
`dma_buf[x] = ...` through null, which we model as `none` (undefined
behaviour / crash).  An empty rectangle performs no write and no read. -/
def my_disp_flush_opt (d : Display) (a : Area) (px_map : List Nat) :
    Option (List Nat) → Option FlushOut
  | some buf => some (my_disp_flush d a px_map buf)
  | none =>
      if 0 < (areaW a).toNat ∧ 0 < (areaH a).toNat then none
      else some { events := Event.setAddrWindow (lv_display_get_user_data d) a.x1 a.y1
                    (areaW a) (areaH a) ::
                    (List.range (areaH a).toNat).map
                      (fun _ => pushRow (lv_display_get_user_data d) [] 0) ++
                    [Event.flushReady],
                  dmaBuf := [] }

/-- A single store in a flat byte-addressed-by-sample memory. -/
def heapWrite (hp : Nat → Nat) (addr v : Nat) : Nat → Nat :=
  fun b => if b = addr then v else hp b

/-- Memory-level view of the inner conversion loop of `my_disp_flush`: the
row buffer lives at address `dmaA`, the current source row at `srcA`;
iteration `x` reads `srcA + x` from the current heap and stores the
byte-swap at `dmaA + x`, exactly as the C loop does. -/
def convertRowHeap (dmaA srcA : Nat) : Nat → (Nat → Nat) → Nat → Nat
  | 0, hp => hp
  | Nat.succ x, hp =>
      let hp2 := convertRowHeap dmaA srcA x hp
      heapWrite hp2 (dmaA + x) (bswap16 (hp2 (srcA + x)))

/-- Memory-level view of the outer row loop of `my_disp_flush`: `h` rows,
the source address advancing by `w` per row, the row buffer reused. -/
def flushRowsHeap (dmaA w : Nat) : Nat → Nat → (Nat → Nat) → Nat → Nat
  | 0, _, hp => hp
  | Nat.succ hRem, srcA, hp =>
      flushRowsHeap dmaA w hRem (srcA + w) (convertRowHeap dmaA srcA w hp)

/-- Memory-level view of `my_disp_flush` as a whole: the heap after flushing
rectangle `a` with the engine's pixel buffer at `srcA` and the row
transfer buffer at `dmaA`. -/
def my_disp_flush_mem (a : Area) (srcA dmaA : Nat) (hp : Nat → Nat) : Nat → Nat :=
  flushRowsHeap dmaA (areaW a).toNat (areaH a).toNat srcA hp

/-! ### The bring-up sequences (`setup()` of both variants) -/

/-- Embedding of `#define LCD_WIDTH 320` (ex01 variant, line 28). -/
def LCD_WIDTH : Nat := 320

/-- Embedding of `#define LCD_HEIGHT 480` (ex01 variant, line 29). -/
def LCD_HEIGHT : Nat := 480

/-- Capacity in samples, `static uint16_t dma_buf_static[512];`, of the
static fallback row buffer (line 53 / line 46). -/
def DMA_BUF_STATIC_LEN : Nat := 512

/-- Modelled from the spec: the copilot variant obtains its width from the
external driver (`lcd.width()` after `lcd.setRotation(270)`), code that is
not in this repository.  The spec fixes the panel at 320x480 and the
rotation at landscape, so the reported width is 480. -/
def copilot_lcd_width : Nat := 480

/-- Initialization actions `setup()` performs, in program order.  Informational
`Serial.print` lines are not modelled; the warning and fatal-error log lines
the spec's error taxonomy names are.  The allocation events record whether
the `heap_caps_malloc` / engine call at that point succeeded. -/
inductive SetupEvent where
  | serialBegin
  | lvInit
  | lvTickSetCb
  | lcdBegin
  | lcdSetRotation
  | allocDmaBuf (ok : Bool)
  | logWarnDmaFallback
  | allocDrawBuf (ok : Bool)
  | logFatalDrawBufAlloc
  | lvDisplayCreate (ok : Bool)
  | logFatalDisplayCreate
  | lvDrawBufInit (ok : Bool)
  | logFatalDrawBufInit
  | lvDisplaySetDrawBuffers
  | lvDisplaySetFlushCb
  | lvDisplaySetUserData
  | lvDisplaySetColorFormat
  | lvDisplaySetRenderMode
  | lvDisplaySetDefault
  | createHelloWorldUi
deriving DecidableEq, Repr

/-- How `setup()` ends: falling through into the `loop()` render loop, or
stuck in a fatal `while (1);`. -/
inductive SetupResult where
  | running
  | halted
deriving DecidableEq, Repr

/-- Outcome of a bring-up run: the event trace, the final control state, and
the capacity (in 16-bit samples) of the buffer `dma_buf` points to —
`none` while `dma_buf` is still the null pointer. -/
structure SetupState where
  events : List SetupEvent
  outcome : SetupResult
  dmaBufLen : Option Nat
deriving DecidableEq, Repr

/-- Embedding of `setup()` of `ex01_hello_lvgl/main.cpp` (lines 104-186), parameterized by
which fallible steps succeed: `dmaOk` the DMA-capable row-buffer
allocation (line 140), `drawOk` the PSRAM draw-buffer allocation
(line 152), `dispOk` `lv_display_create` (line 161), `dbiOk`
`lv_draw_buf_init` (line 169).  Order: serial, `lv_init`,
`lv_tick_set_cb`, `lcd.begin`, row-buffer allocation (fallback to the
static buffer with a warning on failure), draw-buffer allocation (fatal),
display creation (fatal), draw-buffer init (fatal), the display
configuration calls including `lv_display_set_flush_cb` and
`lv_display_set_user_data`, then `create_hello_world_ui`. -/
def setup_ex01 (dmaOk drawOk dispOk dbiOk : Bool) : SetupState :=
  let pre : List SetupEvent := [.serialBegin, .lvInit, .lvTickSetCb, .lcdBegin]
  let evA : List SetupEvent :=
    if dmaOk then pre ++ [.allocDmaBuf true]
    else pre ++ [.allocDmaBuf false, .logWarnDmaFallback]
  let dmaLen : Option Nat := if dmaOk then some LCD_WIDTH else some DMA_BUF_STATIC_LEN
  if drawOk = false then
    { events := evA ++ [.allocDrawBuf false, .logFatalDrawBufAlloc],
      outcome := .halted, dmaBufLen := dmaLen }
  else
    let evB := evA ++ [.allocDrawBuf true]
    if dispOk = false then
      { events := evB ++ [.lvDisplayCreate false, .logFatalDisplayCreate],
        outcome := .halted, dmaBufLen := dmaLen }
    else
      let evC := evB ++ [.lvDisplayCreate true]
      if dbiOk = false then
        { events := evC ++ [.lvDrawBufInit false, .logFatalDrawBufInit],
          outcome := .halted, dmaBufLen := dmaLen }
      else
        { events := evC ++ [.lvDrawBufInit true, .lvDisplaySetDrawBuffers,
            .lvDisplaySetFlushCb, .lvDisplaySetUserData, .lvDisplaySetColorFormat,
            .lvDisplaySetRenderMode, .lvDisplaySetDefault, .createHelloWorldUi],
          outcome := .running, dmaBufLen := dmaLen }

/-- Embedding of `setup()` of `ex01_hello_lvgl_copilot/main.cpp` (lines 106-179),
parameterized the same way.  Order differs from the ex01 variant: serial,
`lv_init`, `lv_tick_set_cb`, `lcd.begin`, `lcd.setRotation`, draw-buffer
allocation (line 137, fatal), `lv_draw_buf_init` (line 145, fatal),
`lv_display_create` (line 152, fatal), the display configuration calls
including `lv_display_set_flush_cb` (line 159, no
`lv_display_set_user_data` in this variant), and only then the row-buffer
allocation (line 169, static fallback with a warning on failure), then
`create_hello_world_ui`. -/
def setup_copilot (drawOk dbiOk dispOk dmaOk : Bool) : SetupState :=
  let pre : List SetupEvent :=
    [.serialBegin, .lvInit, .lvTickSetCb, .lcdBegin, .lcdSetRotation]
  if drawOk = false then
    { events := pre ++ [.allocDrawBuf false, .logFatalDrawBufAlloc],
      outcome := .halted, dmaBufLen := none }
  else
    let evB := pre ++ [.allocDrawBuf true]
    if dbiOk = false then
      { events := evB ++ [.lvDrawBufInit false, .logFatalDrawBufInit],
        outcome := .halted, dmaBufLen := none }
    else
      let evC := evB ++ [.lvDrawBufInit true]
      if dispOk = false then
        { events := evC ++ [.lvDisplayCreate false, .logFatalDisplayCreate],
          outcome := .halted, dmaBufLen := none }
      else
        let evD := evC ++ [.lvDisplayCreate true, .lvDisplaySetDrawBuffers,
          .lvDisplaySetFlushCb, .lvDisplaySetColorFormat,
          .lvDisplaySetRenderMode, .lvDisplaySetDefault]
        if dmaOk then
          { events := evD ++ [.allocDmaBuf true, .createHelloWorldUi],
            outcome := .running, dmaBufLen := some copilot_lcd_width }
        else
          { events := evD ++ [.allocDmaBuf false, .logWarnDmaFallback,
              .createHelloWorldUi],
            outcome := .running, dmaBufLen := some DMA_BUF_STATIC_LEN }

/-- The strict linear bring-up order the spec states (section 4.2): graphics
core init, then time-source callback, then panel-driver init, then Row
Transfer Buffer allocation, then Pixel Buffer allocation, then display
construction and flush-handler registration, then scene build — and the
run ends in the render loop.  `dmaEv`/`drawEv` select which outcome of
the two allocation steps the trace is expected to contain. -/
abbrev bringUpOrder (dmaEv drawEv : SetupEvent) (st : SetupState) : Prop :=
  st.events.indexOf SetupEvent.lvInit < st.events.indexOf SetupEvent.lvTickSetCb ∧
  st.events.indexOf SetupEvent.lvTickSetCb < st.events.indexOf SetupEvent.lcdBegin ∧
  st.events.indexOf SetupEvent.lcdBegin < st.events.indexOf dmaEv ∧
  st.events.indexOf dmaEv < st.events.indexOf drawEv ∧
  st.events.indexOf drawEv < st.events.indexOf (SetupEvent.lvDisplayCreate true) ∧
  st.events.indexOf (SetupEvent.lvDisplayCreate true) <
    st.events.indexOf SetupEvent.lvDisplaySetFlushCb ∧
  st.events.indexOf SetupEvent.lvDisplaySetFlushCb <
    st.events.indexOf SetupEvent.createHelloWorldUi ∧
  dmaEv ∈ st.events ∧ drawEv ∈ st.events ∧
  SetupEvent.lvDisplaySetFlushCb ∈ st.events ∧
  SetupEvent.createHelloWorldUi ∈ st.events ∧
  st.outcome = SetupResult.running

/-- The order the copilot variant actually follows: Pixel Buffer allocation,
draw-buffer init and display construction/registration all precede the
Row Transfer Buffer allocation, which precedes the scene build. -/
abbrev copilotOrder (dmaEv : SetupEvent) (st : SetupState) : Prop :=
  st.events.indexOf SetupEvent.lvInit < st.events.indexOf SetupEvent.lvTickSetCb ∧
  st.events.indexOf SetupEvent.lvTickSetCb < st.events.indexOf SetupEvent.lcdBegin ∧
  st.events.indexOf SetupEvent.lcdBegin < st.events.indexOf (SetupEvent.allocDrawBuf true) ∧
  st.events.indexOf (SetupEvent.allocDrawBuf true) <
    st.events.indexOf (SetupEvent.lvDrawBufInit true) ∧
  st.events.indexOf (SetupEvent.lvDrawBufInit true) <
    st.events.indexOf (SetupEvent.lvDisplayCreate true) ∧
  st.events.indexOf (SetupEvent.lvDisplayCreate true) <
    st.events.indexOf SetupEvent.lvDisplaySetFlushCb ∧
  st.events.indexOf SetupEvent.lvDisplaySetFlushCb < st.events.indexOf dmaEv ∧
  st.events.indexOf dmaEv < st.events.indexOf SetupEvent.createHelloWorldUi ∧
  dmaEv ∈ st.events ∧ SetupEvent.lvDisplaySetFlushCb ∈ st.events ∧
  SetupEvent.createHelloWorldUi ∈ st.events ∧
  st.outcome = SetupResult.running

/-! ### Helper lemmas -/

theorem convertRow_length (src : List Nat) (off w : Nat) (buf : List Nat) :
    (convertRow src off w buf).length = buf.length := by
  induction w with
  | zero => rfl
  | succ x ih => simp [convertRow, List.length_set, ih]

theorem convertRow_getD (src : List Nat) (off : Nat) :
    ∀ (w : Nat) (buf : List Nat) (x : Nat), x < w → x < buf.length →
    (convertRow src off w buf).getD x 0 = bswap16 (src.getD (off + x) 0) := by
  intro w
  induction w with
  | zero => intro buf x hx _; omega
  | succ w2 ih =>
    intro buf x hx hb
    by_cases hxw : x = w2
    · subst hxw
      simp only [convertRow]
      rw [List.getD_eq_getElem?_getD,
        List.getElem?_set_self (by rw [convertRow_length]; exact hb)]
      rfl
    · simp only [convertRow]
      rw [List.getD_eq_getElem?_getD, List.getElem?_set_ne (by omega),
        ← List.getD_eq_getElem?_getD]
      exact ih buf x (by omega) hb

theorem convertRow_push (handle : Nat) (src : List Nat) (off w : Nat) (buf : List Nat)
    (hw : w ≤ buf.length) :
    pushRow handle (convertRow src off w buf) w =
    Event.pushPixels handle
      ((List.range w).map fun x => bswap16 (src.getD (off + x) 0)) true true := by
  unfold pushRow
  congr 1
  apply List.map_congr_left
  intro x hx
  rw [List.mem_range] at hx
  exact convertRow_getD src off w buf x hx (lt_of_lt_of_le hx hw)

theorem flushRows_events (handle : Nat) (src : List Nat) (w : Nat) :
    ∀ (hRem off : Nat) (buf : List Nat), w ≤ buf.length →
    (flushRows handle src w hRem off buf).events =
    (List.range hRem).map (fun y =>
      Event.pushPixels handle
        ((List.range w).map fun x => bswap16 (src.getD (off + (y * w + x)) 0))
        true true) := by
  intro hRem
  induction hRem with
  | zero => intro off buf _; rfl
  | succ h2 ih =>
    intro off buf hw
    simp only [flushRows, List.range_succ_eq_map, List.map_cons, List.map_map]
    refine congrArg₂ List.cons ?_ ?_
    · rw [convertRow_push handle src off w buf hw]
      simp
    · rw [ih (off + w) (convertRow src off w buf) (by rw [convertRow_length]; exact hw)]
      apply List.map_congr_left
      intro y _
      simp only [Function.comp_apply]
      have hrow : ∀ x ∈ List.range w,
          bswap16 (src.getD (off + w + (y * w + x)) 0) =
          bswap16 (src.getD (off + (Nat.succ y * w + x)) 0) := by
        intro x _
        have hix : off + w + (y * w + x) = off + (Nat.succ y * w + x) := by
          simp only [Nat.succ_mul]
          ring
        rw [hix]
      rw [List.map_congr_left hrow]

theorem flushRows_no_ready (handle : Nat) (src : List Nat) (w : Nat) :
    ∀ (hRem off : Nat) (buf : List Nat),
    Event.flushReady ∉ (flushRows handle src w hRem off buf).events := by
  intro hRem
  induction hRem with
  | zero => intro off buf; simp [flushRows]
  | succ h2 ih =>
    intro off buf
    simp only [flushRows, List.mem_cons]
    push_neg
    exact ⟨by simp [pushRow], ih _ _⟩

theorem convertRowC_eq (src : List Nat) (off : Nat) :
    ∀ (w : Nat) (buf : List Nat), convertRowC src off w buf = convertRow src off w buf := by
  intro w
  induction w with
  | zero => intro buf; rfl
  | succ x ih => intro buf; simp [convertRowC, convertRow, ih]

theorem flushRowsC_eq (handle : Nat) (src : List Nat) (w : Nat) :
    ∀ (hRem off : Nat) (buf : List Nat),
    flushRowsC handle src w hRem off buf = flushRows handle src w hRem off buf := by
  intro hRem
  induction hRem with
  | zero => intro off buf; rfl
  | succ h2 ih => intro off buf; simp [flushRowsC, flushRows, convertRowC_eq, ih]

theorem convertRowHeap_frame (dmaA srcA : Nat) :
    ∀ (w : Nat) (hp : Nat → Nat) (b : Nat), b < dmaA ∨ dmaA + w ≤ b →
    convertRowHeap dmaA srcA w hp b = hp b := by
  intro w
  induction w with
  | zero => intro hp b _; rfl
  | succ x ih =>
    intro hp b hb
    simp only [convertRowHeap, heapWrite]
    rw [if_neg (by omega)]
    exact ih hp b (by omega)

theorem flushRowsHeap_frame (dmaA w : Nat) :
    ∀ (h srcA : Nat) (hp : Nat → Nat) (b : Nat), b < dmaA ∨ dmaA + w ≤ b →
    flushRowsHeap dmaA w h srcA hp b = hp b := by
  intro h
  induction h with
  | zero => intro srcA hp b _; rfl
  | succ h2 ih =>
    intro srcA hp b hb
    simp only [flushRowsHeap]
    rw [ih _ _ _ hb, convertRowHeap_frame dmaA srcA w hp b hb]

/-! ### Claim theorems -/

/-- C1: for every 16-bit input sample `s` the flush callback converts, the
value written into the row transfer buffer `dma_buf` is `swap16(s)` — the
high and low bytes of `s` exchanged — and in particular on the boundary
values 0x0000, 0xFFFF, 0x00FF, 0xFF00 the written values are 0x0000,
0xFFFF, 0xFF00, 0x00FF. -/
theorem flush_byteswap_correct :
    (∀ (src : List Nat) (off w : Nat) (buf : List Nat) (x : Nat),
      x < w → x < buf.length → src.getD (off + x) 0 < 65536 →
      (convertRow src off w buf).getD x 0 =
        (src.getD (off + x) 0 % 256) * 256 + src.getD (off + x) 0 / 256) ∧
    (convertRow [0x0000] 0 1 [7]).getD 0 0 = 0x0000 ∧
    (convertRow [0xFFFF] 0 1 [7]).getD 0 0 = 0xFFFF ∧
    (convertRow [0x00FF] 0 1 [7]).getD 0 0 = 0xFF00 ∧
    (convertRow [0xFF00] 0 1 [7]).getD 0 0 = 0x00FF := by
  refine ⟨?_, by decide, by decide, by decide, by decide⟩
  intro src off w buf x hx hb hs
  rw [convertRow_getD src off w buf x hx hb]
  unfold bswap16
  omega

/-- Witness for C1 at the concrete sample 0x1234 (= 4660). -/
theorem flush_byteswap_correct_witness :
    (convertRow [4660] 0 1 [0]).getD 0 0 = (4660 % 256) * 256 + 4660 / 256 :=
  flush_byteswap_correct.1 [4660] 0 1 [0] 0 (by decide) (by decide) (by decide)

/-- C2: for a dirty rectangle with inclusive bounds, the flush callback (in
both variants) computes `w = x2-x1+1` and `h = y2-y1+1`, first sets the
address window to the rectangle and then issues exactly `h` `pushPixels`
calls of exactly `w` converted samples each, row `y` taking its samples
from source indices `y*w .. y*w+w-1` — the source buffer of `w*h` samples
is covered with no gaps or overlaps — before signalling flush-ready. -/
theorem flush_row_coverage :
    ∀ (d : Display) (a : Area) (px buf : List Nat),
      a.x1 ≤ a.x2 → a.y1 ≤ a.y2 → (areaW a).toNat ≤ buf.length →
      ((my_disp_flush d a px buf).events =
        Event.setAddrWindow d.userData a.x1 a.y1 (areaW a) (areaH a) ::
        ((List.range (areaH a).toNat).map (fun y =>
          Event.pushPixels d.userData
            ((List.range (areaW a).toNat).map fun x =>
              bswap16 (px.getD (y * (areaW a).toNat + x) 0)) true true)
         ++ [Event.flushReady])) ∧
      ((my_disp_flush_c d a px buf).events =
        Event.setAddrWindow copilot_lcd a.x1 a.y1 (areaW a) (areaH a) ::
        ((List.range (areaH a).toNat).map (fun y =>
          Event.pushPixels copilot_lcd
            ((List.range (areaW a).toNat).map fun x =>
              bswap16 (px.getD (y * (areaW a).toNat + x) 0)) true true)
         ++ [Event.flushReady])) := by
  intro d a px buf _ _ hw
  constructor
  · unfold my_disp_flush
    simp only [lv_display_get_user_data]
    rw [flushRows_events d.userData px (areaW a).toNat (areaH a).toNat 0 buf hw]
    simp
  · unfold my_disp_flush_c
    simp only [flushRowsC_eq]
    rw [flushRows_events copilot_lcd px (areaW a).toNat (areaH a).toNat 0 buf hw]
    simp

/-- Witness for C2: a 2x2 rectangle at the origin with user-data handle 7. -/
theorem flush_row_coverage_witness :
    ((my_disp_flush ⟨7⟩ ⟨0, 0, 1, 1⟩ [1, 2, 3, 4] [0, 0]).events =
      Event.setAddrWindow 7 0 0 (areaW ⟨0, 0, 1, 1⟩) (areaH ⟨0, 0, 1, 1⟩) ::
      ((List.range (areaH (⟨0, 0, 1, 1⟩ : Area)).toNat).map (fun y =>
        Event.pushPixels 7
          ((List.range (areaW (⟨0, 0, 1, 1⟩ : Area)).toNat).map fun x =>
            bswap16 (([1, 2, 3, 4] : List Nat).getD
              (y * (areaW (⟨0, 0, 1, 1⟩ : Area)).toNat + x) 0)) true true)
       ++ [Event.flushReady])) ∧
    ((my_disp_flush_c ⟨7⟩ ⟨0, 0, 1, 1⟩ [1, 2, 3, 4] [0, 0]).events =
      Event.setAddrWindow copilot_lcd 0 0 (areaW ⟨0, 0, 1, 1⟩) (areaH ⟨0, 0, 1, 1⟩) ::
      ((List.range (areaH (⟨0, 0, 1, 1⟩ : Area)).toNat).map (fun y =>
        Event.pushPixels copilot_lcd
          ((List.range (areaW (⟨0, 0, 1, 1⟩ : Area)).toNat).map fun x =>
            bswap16 (([1, 2, 3, 4] : List Nat).getD
              (y * (areaW (⟨0, 0, 1, 1⟩ : Area)).toNat + x) 0)) true true)
       ++ [Event.flushReady])) :=
  flush_row_coverage ⟨7⟩ ⟨0, 0, 1, 1⟩ [1, 2, 3, 4] [0, 0]
    (by decide) (by decide) (by decide)

/-- C3: every invocation of the flush callback (either variant) signals
`lv_display_flush_ready` exactly once, on every control path, for every
rectangle and every buffer — there is no negative-acknowledgement path. -/
theorem flush_ready_once :
    ∀ (d : Display) (a : Area) (px buf : List Nat),
      (my_disp_flush d a px buf).events.count Event.flushReady = 1 ∧
      (my_disp_flush_c d a px buf).events.count Event.flushReady = 1 := by
  intro d a px buf
  constructor
  · have hno := flushRows_no_ready d.userData px (areaW a).toNat (areaH a).toNat 0 buf
    simp [my_disp_flush, lv_display_get_user_data, List.count_cons, List.count_append,
      List.count_eq_zero.mpr hno]
  · have hno := flushRows_no_ready copilot_lcd px (areaW a).toNat (areaH a).toNat 0 buf
    simp [my_disp_flush_c, flushRowsC_eq, List.count_cons, List.count_append,
      List.count_eq_zero.mpr hno]

/-- C4 counterexample: the claimed strict linear bring-up order does not hold
in every example program.  On the all-allocations-succeed run, the ex01
variant follows it, but the copilot variant does not: it registers the
display surface with the flush handler before allocating the Row Transfer
Buffer. -/
theorem bringup_order_counterexample :
    ¬ (bringUpOrder (.allocDmaBuf true) (.allocDrawBuf true)
         (setup_ex01 true true true true) ∧
       bringUpOrder (.allocDmaBuf true) (.allocDrawBuf true)
         (setup_copilot true true true true)) := by
  decide

/-- C4 amended: the ex01 variant's bring-up follows the claimed strict order
(graphics core, tick callback, panel driver, Row Transfer Buffer, Pixel
Buffer, display construction and flush-handler registration, scene, loop)
with either row-buffer allocation outcome; the copilot variant instead
allocates the Pixel Buffer, initializes the draw buffer and constructs
and registers the display (flush handler attached) before allocating the
Row Transfer Buffer, then builds the scene and enters the loop. -/
theorem bringup_order_amended :
    bringUpOrder (.allocDmaBuf true) (.allocDrawBuf true)
      (setup_ex01 true true true true) ∧
    bringUpOrder (.allocDmaBuf false) (.allocDrawBuf true)
      (setup_ex01 false true true true) ∧
    copilotOrder (.allocDmaBuf true) (setup_copilot true true true true) ∧
    copilotOrder (.allocDmaBuf false) (setup_copilot true true true false) :=
  ⟨by decide, by decide, by decide, by decide⟩

/-- C5: if the DMA-capable Row Transfer Buffer allocation fails at startup,
both variants log a warning, substitute the 512-sample static fallback
buffer and continue to the render loop; and a flush confined to the
fallback's capacity writes only inside a 512-cell region, so rectangles
no wider than 512 samples stay in bounds. -/
theorem dma_fallback_recovers :
    (setup_ex01 false true true true).outcome = SetupResult.running ∧
    SetupEvent.logWarnDmaFallback ∈ (setup_ex01 false true true true).events ∧
    (setup_ex01 false true true true).dmaBufLen = some DMA_BUF_STATIC_LEN ∧
    (setup_copilot true true true false).outcome = SetupResult.running ∧
    SetupEvent.logWarnDmaFallback ∈ (setup_copilot true true true false).events ∧
    (setup_copilot true true true false).dmaBufLen = some DMA_BUF_STATIC_LEN ∧
    (∀ (hp : Nat → Nat) (srcA dmaA w h b : Nat),
      w ≤ DMA_BUF_STATIC_LEN → (b < dmaA ∨ dmaA + DMA_BUF_STATIC_LEN ≤ b) →
      flushRowsHeap dmaA w h srcA hp b = hp b) := by
  refine ⟨by decide, by decide, by decide, by decide, by decide, by decide, ?_⟩
  intro hp srcA dmaA w h b hw hb
  exact flushRowsHeap_frame dmaA w h srcA hp b (by omega)

/-- Witness for C5: a full-capacity (512-sample) row leaves the cell at
address 600 untouched when the buffer sits at address 0. -/
theorem dma_fallback_recovers_witness :
    flushRowsHeap 0 512 1 2000 (fun n => n) 600 = 600 :=
  dma_fallback_recovers.2.2.2.2.2.2 (fun n => n) 2000 0 512 1 600
    (by decide) (Or.inr (by decide))

/-- C6: a Pixel Buffer (draw buffer) allocation failure, an
`lv_display_create` failure or an `lv_draw_buf_init` failure during
bring-up logs the corresponding fatal error as the last event and leaves
the program in the terminal halted state — the scene is never built (and,
for the earliest copilot failure, the row buffer is never allocated);
there is no recovery path.  Holds for both variants and all outcomes of
the steps not reached. -/
theorem fatal_alloc_halts :
    ∀ o1 o2 o3 : Bool,
      ((setup_ex01 o1 false o2 o3).outcome = SetupResult.halted ∧
       (setup_ex01 o1 false o2 o3).events.getLast? =
         some SetupEvent.logFatalDrawBufAlloc ∧
       SetupEvent.createHelloWorldUi ∉ (setup_ex01 o1 false o2 o3).events ∧
       SetupEvent.lvDisplaySetFlushCb ∉ (setup_ex01 o1 false o2 o3).events) ∧
      ((setup_ex01 o1 true false o3).outcome = SetupResult.halted ∧
       (setup_ex01 o1 true false o3).events.getLast? =
         some SetupEvent.logFatalDisplayCreate ∧
       SetupEvent.createHelloWorldUi ∉ (setup_ex01 o1 true false o3).events) ∧
      ((setup_ex01 o1 true true false).outcome = SetupResult.halted ∧
       (setup_ex01 o1 true true false).events.getLast? =
         some SetupEvent.logFatalDrawBufInit ∧
       SetupEvent.createHelloWorldUi ∉ (setup_ex01 o1 true true false).events) ∧
      ((setup_copilot false o1 o2 o3).outcome = SetupResult.halted ∧
       (setup_copilot false o1 o2 o3).events.getLast? =
         some SetupEvent.logFatalDrawBufAlloc ∧
       SetupEvent.createHelloWorldUi ∉ (setup_copilot false o1 o2 o3).events ∧
       SetupEvent.allocDmaBuf true ∉ (setup_copilot false o1 o2 o3).events ∧
       SetupEvent.allocDmaBuf false ∉ (setup_copilot false o1 o2 o3).events) ∧
      ((setup_copilot true false o2 o3).outcome = SetupResult.halted ∧
       (setup_copilot true false o2 o3).events.getLast? =
         some SetupEvent.logFatalDrawBufInit ∧
       SetupEvent.createHelloWorldUi ∉ (setup_copilot true false o2 o3).events) ∧
      ((setup_copilot true true false o3).outcome = SetupResult.halted ∧
       (setup_copilot true true false o3).events.getLast? =
         some SetupEvent.logFatalDisplayCreate ∧
       SetupEvent.createHelloWorldUi ∉ (setup_copilot true true false o3).events) := by
  intro o1 o2 o3
  cases o1 <;> cases o2 <;> cases o3 <;>
    exact ⟨by decide, by decide, by decide, by decide, by decide, by decide⟩

/-- C7: the Row Transfer Buffer in use is always at least as wide (in 16-bit
samples) as the panel width: the primary allocation is sized exactly to
the display width (320 for ex01, 480 for the rotated copilot panel) and
the static fallback holds 512 ≥ both; and a flush of a rectangle no wider
than the buffer's capacity writes only inside the buffer's cells. -/
theorem row_buffer_capacity :
    (setup_ex01 true true true true).dmaBufLen = some LCD_WIDTH ∧
    (setup_ex01 false true true true).dmaBufLen = some DMA_BUF_STATIC_LEN ∧
    LCD_WIDTH ≤ DMA_BUF_STATIC_LEN ∧
    (setup_copilot true true true true).dmaBufLen = some copilot_lcd_width ∧
    (setup_copilot true true true false).dmaBufLen = some DMA_BUF_STATIC_LEN ∧
    copilot_lcd_width ≤ DMA_BUF_STATIC_LEN ∧
    (∀ (a : Area) (hp : Nat → Nat) (srcA dmaA cap b : Nat),
      (areaW a).toNat ≤ cap → (b < dmaA ∨ dmaA + cap ≤ b) →
      my_disp_flush_mem a srcA dmaA hp b = hp b) := by
  refine ⟨by decide, by decide, by decide, by decide, by decide, by decide, ?_⟩
  intro a hp srcA dmaA cap b hcap hb
  exact flushRowsHeap_frame dmaA (areaW a).toNat (areaH a).toNat srcA hp b (by omega)

/-- Witness for C7: a full-width (320-sample) row on a 512-capacity buffer at
address 0 leaves the cell at address 4000 untouched. -/
theorem row_buffer_capacity_witness :
    my_disp_flush_mem ⟨0, 0, 319, 0⟩ 5000 0 (fun n => n + 1) 4000 = 4001 :=
  row_buffer_capacity.2.2.2.2.2.2 ⟨0, 0, 319, 0⟩ (fun n => n + 1) 5000 0 512 4000
    (by decide) (Or.inr (by decide))

/-- C8: the flush callback writes through `dma_buf` with no null check, so it
requires `dma_buf` to have been assigned; in the copilot variant the
flush handler is registered with the display before `dma_buf` is
allocated, and a flush of any non-empty rectangle invoked with `dma_buf`
still null dereferences the null pointer. -/
theorem flush_requires_dma_buf :
    ((setup_copilot true true true true).events.indexOf SetupEvent.lvDisplaySetFlushCb <
       (setup_copilot true true true true).events.indexOf (SetupEvent.allocDmaBuf true) ∧
     SetupEvent.lvDisplaySetFlushCb ∈ (setup_copilot true true true true).events ∧
     SetupEvent.allocDmaBuf true ∈ (setup_copilot true true true true).events) ∧
    (∀ (d : Display) (a : Area) (px : List Nat),
      0 < areaW a → 0 < areaH a →
      my_disp_flush_opt d a px none = none) := by
  refine ⟨by decide, ?_⟩
  intro d a px hw hh
  have h1 : 0 < (areaW a).toNat := by omega
  have h2 : 0 < (areaH a).toNat := by omega
  simp [my_disp_flush_opt, h1, h2]

/-- Witness for C8: a 2x2 flush through a null `dma_buf` crashes. -/
theorem flush_requires_dma_buf_witness :
    my_disp_flush_opt ⟨7⟩ ⟨0, 0, 1, 1⟩ [1, 2, 3, 4] none = none :=
  flush_requires_dma_buf.2 ⟨7⟩ ⟨0, 0, 1, 1⟩ [1, 2, 3, 4] (by decide) (by decide)

/-- C9: the two flush-callback implementations are behaviourally equivalent:
whenever the ex01 variant's display user data holds the copilot variant's
file-scope driver handle, both emit the identical sequence of
`setAddrWindow`, per-row `pushPixels` (same converted samples, same
flags) and flush-ready calls, for every rectangle and every buffer. -/
theorem flush_variants_equivalent :
    ∀ (d d2 : Display) (a : Area) (px buf : List Nat),
      d.userData = copilot_lcd →
      (my_disp_flush d a px buf).events = (my_disp_flush_c d2 a px buf).events := by
  intro d d2 a px buf hud
  unfold my_disp_flush my_disp_flush_c
  simp only [lv_display_get_user_data, hud, flushRowsC_eq]

/-- Witness for C9 on a concrete 2x2 flush. -/
theorem flush_variants_equivalent_witness :
    (my_disp_flush ⟨copilot_lcd⟩ ⟨0, 0, 1, 1⟩ [1, 2, 3, 4] [0, 0]).events =
    (my_disp_flush_c ⟨9⟩ ⟨0, 0, 1, 1⟩ [1, 2, 3, 4] [0, 0]).events :=
  flush_variants_equivalent ⟨copilot_lcd⟩ ⟨9⟩ ⟨0, 0, 1, 1⟩ [1, 2, 3, 4] [0, 0] rfl

/-- C10: the flush callback never writes the engine's pixel buffer: every
memory cell outside the first `w` cells of the row transfer buffer is
identical before and after the flush; in particular, when the pixel
buffer region is disjoint from the row buffer's cells, its entire
contents are unchanged. -/
theorem flush_preserves_px_map :
    (∀ (a : Area) (srcA dmaA : Nat) (hp : Nat → Nat) (b : Nat),
      b < dmaA ∨ dmaA + (areaW a).toNat ≤ b →
      my_disp_flush_mem a srcA dmaA hp b = hp b) ∧
    (∀ (a : Area) (srcA dmaA len : Nat) (hp : Nat → Nat),
      (∀ i, i < len → srcA + i < dmaA ∨ dmaA + (areaW a).toNat ≤ srcA + i) →
      ∀ i, i < len → my_disp_flush_mem a srcA dmaA hp (srcA + i) = hp (srcA + i)) := by
  constructor
  · intro a srcA dmaA hp b hb
    exact flushRowsHeap_frame dmaA (areaW a).toNat (areaH a).toNat srcA hp b hb
  · intro a srcA dmaA len hp hdisj i hi
    exact flushRowsHeap_frame dmaA (areaW a).toNat (areaH a).toNat srcA hp (srcA + i)
      (hdisj i hi)

/-- Witness for C10: flushing a 2x2 rectangle with the row buffer at address 0
leaves the pixel-buffer cell at address 100 unchanged. -/
theorem flush_preserves_px_map_witness :
    my_disp_flush_mem ⟨0, 0, 1, 1⟩ 100 0 (fun n => n) 100 = 100 :=
  flush_preserves_px_map.1 ⟨0, 0, 1, 1⟩ 100 0 (fun n => n) 100 (Or.inr (by decide))

end VAFleet
